import Mathlib

/-!
# Verification of the name-validation pipeline (`src/main.py`)

A shallow embedding of the pipeline in `main.py`: token extraction
(`pick_first_token_as_name`), oracle-reply parsing
(`parse_validation_response`), per-name classification
(`validate_one_name`), parallel batch dispatch (`validate_batch_parallel`),
the idempotency guard (`_make_idempotency_key`, `_already_processed`),
the publisher (`post_results_once`) and the orchestrator (`validate_names`).

Modelling conventions:
* Python strings are Lean `String`s; Python `float` scores are modelled as `ℚ`
  (the oracle is prompted for plain `0-10` numerals; exponent notation,
  `inf`/`nan` and underscore digit separators of Python's `float()` are not
  modelled and parse to `none`).
* Wall-clock timestamps are `ℚ` values passed explicitly (`time.time()`).
* The thread pool's `as_completed` iteration order is an explicit `order`
  parameter listing submission indices in completion order.
* The external oracle call is a parameter `String → Except Unit String`
  (`.error` models a raised exception, `.ok` the reply text); the delivery
  POST is a parameter `Nat → Except String NetResp` from attempt number to
  transport outcome (`.error` models a raised `requests` exception).
* Elapsed-millisecond bookkeeping (`validate_ms`, `elapsed_ms`, `total_ms`)
  is wall-clock instrumentation and is not modelled; `time.sleep` calls are
  modelled by recording the slept durations in an explicit trace.
-/

namespace NameValidator

/-! String primitives.  Python's string methods are modelled by
structurally recursive functions over `List Char` (Lean's own `String`
methods are compiled but not kernel-reducible), converted at the boundary
with `String.toList`/`String.mk`.  Case mapping and whitespace classes are
modelled for ASCII, which covers the key tokens the parser matches. -/

/-- Python's ASCII whitespace class (`str.strip`/`str.split`). -/
def isPyWs (c : Char) : Bool :=
  c = ' ' || c = '\t' || c = '\n' || c = '\r' || c = '\x0b' || c = '\x0c'

/-- Substring test on character lists. -/
def containsSub (pat : List Char) : List Char → Bool
  | [] => pat.isEmpty
  | c :: rest => pat.isPrefixOf (c :: rest) || containsSub pat rest

/-- Python `pat in s` substring test. -/
def strContains (s pat : String) : Bool :=
  containsSub pat.toList s.toList

/-- Python `s.strip()`. -/
def pyStrip (s : String) : String :=
  String.mk (((s.toList.dropWhile isPyWs).reverse.dropWhile isPyWs).reverse)

/-- Python `s.lower()` (ASCII). -/
def pyLower (s : String) : String :=
  String.mk (s.toList.map Char.toLower)

/-- Python `s.startswith(pre)`. -/
def pyStartsWith (s pre : String) : Bool :=
  pre.toList.isPrefixOf s.toList

/-- Split at every character satisfying `p`, keeping empty pieces
(the behaviour of Python `str.split(sep)` for one-character classes). -/
def splitPredChars (p : Char → Bool) (acc : List Char) : List Char → List (List Char)
  | [] => [acc.reverse]
  | c :: rest =>
    if p c then acc.reverse :: splitPredChars p [] rest
    else splitPredChars p (c :: acc) rest

/-- Python `str.split()` with no argument: split on whitespace runs,
dropping empty pieces. -/
def pySplitWs (s : String) : List String :=
  ((splitPredChars isPyWs [] s.toList).map String.mk).filter (fun t => t ≠ "")

/-- Python `str.splitlines()`, restricted to the line breaks `\n`/`\r`
(a `\r\n` pair yields an extra empty line, which the parser ignores). -/
def pySplitlines (s : String) : List String :=
  (splitPredChars (fun c => c = '\n' || c = '\r') [] s.toList).map String.mk

/-- Split on a non-empty literal separator, non-overlapping leftmost first,
keeping empty pieces (Python `str.split(sep)`).  `fuel` starts at the
input length, which every recursive call decreases at least as fast as,
so the `0` case is never reached for non-empty separators. -/
def splitOnAux (sep : List Char) : Nat → List Char → List Char → List (List Char)
  | _, acc, [] => [acc.reverse]
  | 0, acc, l => [acc.reverse ++ l]
  | fuel + 1, acc, c :: rest =>
    if sep.isPrefixOf (c :: rest) then
      acc.reverse :: splitOnAux sep fuel [] ((c :: rest).drop sep.length)
    else splitOnAux sep fuel (c :: acc) rest

/-- Python `s.split(sep)` for a non-empty literal separator. -/
def pySplitOnLit (s sep : String) : List String :=
  (splitOnAux sep.toList s.toList.length [] s.toList).map String.mk

/-- Replace every non-overlapping occurrence of `pat` (non-empty),
leftmost first (Python `s.replace(pat, rep)`). -/
def replaceChars (pat rep : List Char) : Nat → List Char → List Char
  | _, [] => []
  | 0, l => l
  | fuel + 1, c :: rest =>
    if pat.isPrefixOf (c :: rest) then
      rep ++ replaceChars pat rep fuel ((c :: rest).drop pat.length)
    else c :: replaceChars pat rep fuel rest

/-- Python `s.replace(pat, rep)` for a non-empty literal pattern. -/
def pyReplace (s pat rep : String) : String :=
  String.mk (replaceChars pat.toList rep.toList s.toList.length s.toList)

/-- Everything after the first `c0`, `none` when `c0` is absent. -/
def afterChar (c0 : Char) : List Char → Option (List Char)
  | [] => none
  | c :: rest => if c = c0 then some rest else afterChar c0 rest

/-- Python `s[:n]`. -/
def pyTake (s : String) (n : Nat) : String :=
  String.mk (s.toList.take n)

/-- Numeric value of a digit run. -/
def pyDigitsVal (l : List Char) : Nat :=
  l.foldl (fun a c => a * 10 + (c.toNat - 48)) 0

/-- Python `float(s)` on an already-stripped string, for plain decimal
literals: optional sign, then `digits`, `digits.`, `.digits` or
`digits.digits`.  Anything else (including exponent forms) is `none`,
modelling `ValueError`. -/
def pyFloat (s : String) : Option ℚ :=
  let core : List Char → Option ℚ := fun ds =>
    let ip := ds.takeWhile (fun c => c.isDigit)
    let rest := ds.drop ip.length
    match rest with
    | [] => if ip.isEmpty then none else some ((pyDigitsVal ip : ℚ))
    | '.' :: fp =>
      if fp.all (fun c => c.isDigit) && !(ip.isEmpty && fp.isEmpty) then
        some ((pyDigitsVal ip : ℚ) + (pyDigitsVal fp : ℚ) / ((10 : ℚ) ^ fp.length))
      else none
    | _ => none
  match s.toList with
  | '-' :: r => (core r).map (fun q => -q)
  | '+' :: r => core r
  | r => core r

/-- Python `low.split(":", 1)[1]`: the text after the first colon, `none`
when there is no colon (`IndexError`). -/
def pyAfterColon (s : String) : Option String :=
  (afterChar ':' s.toList).map String.mk

/-- The dict built by `parse_validation_response` (`main.py:98`): each field
is `none` when never assigned (Python `None`). -/
structure ParsedResponse where
  valid : Option Bool
  score : Option ℚ
  human_review : Option Bool
deriving DecidableEq, Repr

/-- One iteration of the line loop of `parse_validation_response`
(`main.py:99-109`). -/
def parse_line_step (out : ParsedResponse) (line : String) : ParsedResponse :=
  let low := pyLower (pyStrip line)
  if pyStartsWith low "valid" then
    { out with valid := some (strContains low "yes") }
  else if pyStartsWith low "score" then
    { out with score := match pyAfterColon low with
        | none => none
        | some rest => pyFloat (pyStrip rest) }
  else if pyStartsWith low "human_review" then
    { out with human_review := some (strContains low "true") }
  else out

/-- `parse_validation_response` (`main.py:91-110`): fold the line parser
over the reply's lines, starting from the all-`None` dict. -/
def parse_validation_response (text : String) : ParsedResponse :=
  (pySplitlines text).foldl parse_line_step ⟨none, none, none⟩

/-- The chained cleanup of `pick_first_token_as_name` (`main.py:119-124`):
commas and ampersands become `" and "`, double spaces collapse once,
then strip. -/
def pyCleaned (input_name : String) : String :=
  pyStrip (pyReplace (pyReplace (pyReplace input_name "," " and ") "&" " and ") "  " " ")

/-- The `for part in cleaned.split(" and ")` loop of
`pick_first_token_as_name` (`main.py:125-129`): first whitespace token of
the first part that has one, else `""`. -/
def firstTokenOfParts : List String → String
  | [] => ""
  | part :: rest =>
    match pySplitWs (pyStrip part) with
    | [] => firstTokenOfParts rest
    | t :: _ => t

/-- `pick_first_token_as_name` (`main.py:112-129`). -/
def pick_first_token_as_name (input_name : String) : String :=
  if input_name = "" then ""
  else firstTokenOfParts (pySplitOnLit (pyCleaned input_name) " and ")

/-- The normalized result dict returned by `validate_one_name`
(`main.py:131-175`).  Its `score` value is always a number in the code
(`0` when the parsed score is missing). -/
structure Verdict where
  normalized_name : String
  valid : Bool
  score : ℚ
  human_review : Bool
deriving DecidableEq, Repr

/-- `validate_one_name` (`main.py:131-175`).  `oracle_reply` is the outcome
of the `client.chat.completions.create` call: `.error` models a raised
exception (caught at `main.py:168`), `.ok content` the reply text. -/
def validate_one_name (name_str : String) (oracle_reply : Except Unit String) : Verdict :=
  if name_str = "" then
    { normalized_name := "", valid := false, score := 0, human_review := true }
  else
    match oracle_reply with
    | .error _ =>
      { normalized_name := name_str, valid := false, score := 0, human_review := true }
    | .ok content =>
      let answer := pyStrip content
      let parsed := parse_validation_response answer
      let human_review : Bool := match parsed.score with
        | none => true
        | some q => decide (q < 6)
      { normalized_name := name_str,
        valid := decide (parsed.valid = some true),
        score := (parsed.score).getD 0,
        human_review := human_review }

/-- `NameEntry` request model (`main.py:79-81`). -/
structure NameEntry where
  row : Int
  name : String
deriving DecidableEq, Repr

/-- One element of `results_for_sheet` (`main.py:198-207`). -/
structure SheetResult where
  row : Int
  input : String
  name : String
  valid : String
  score : ℚ
  human_review : Bool
deriving DecidableEq, Repr

/-- The dict appended at `main.py:198-207` for one completed future. -/
def mkSheetResult (row : Int) (raw_input : String) (v : Verdict) : SheetResult :=
  { row := row, input := raw_input,
    name := v.normalized_name,
    valid := if v.valid then "Yes" else "No",
    score := v.score,
    human_review := v.human_review }

/-- The sort key comparison of `main.py:209` (`key=lambda x: x["row"]`). -/
def rowLe (a b : SheetResult) : Bool := decide (a.row ≤ b.row)

/-- `validate_batch_parallel` (`main.py:177-211`).  Each submitted future is
identified by its submission index into `candidates`; `order` lists those
indices in `as_completed` completion order (any permutation of
`range entries.length`).  The elapsed-time component of the Python return
value is wall-clock instrumentation and is not modelled. -/
def validate_batch_parallel (entries : List NameEntry)
    (oracle : String → Except Unit String) (order : List Nat) : List SheetResult :=
  let candidates := entries.map (fun e => (e.row, pick_first_token_as_name e.name, e.name))
  let unsorted := order.filterMap (fun i =>
    (candidates[i]?).map (fun c =>
      mkSheetResult c.1 c.2.2 (validate_one_name c.2.1 (oracle c.2.1))))
  unsorted.mergeSort rowLe

/-- UTF-8 encoding of one scalar value (Python `str.encode("utf-8")`). -/
def utf8Bytes (c : Char) : List Nat :=
  let n := c.toNat
  if n < 128 then [n]
  else if n < 2048 then [192 + n / 64, 128 + n % 64]
  else if n < 65536 then [224 + n / 4096, 128 + (n / 64) % 64, 128 + n % 64]
  else [240 + n / 262144, 128 + (n / 4096) % 64, 128 + (n / 64) % 64, 128 + n % 64]

/-- UTF-8 bytes of a string. -/
def strBytes (s : String) : List Nat :=
  (s.toList.map utf8Bytes).flatten

/-- `2^32`, the word modulus of SHA-1. -/
def w32 : Nat := 4294967296

/-- 32-bit left rotation (operand below `2^32`). -/
def rotl32 (k x : Nat) : Nat :=
  ((x <<< k) % w32) ||| (x >>> (32 - k))

/-- SHA-1 message padding: `0x80`, zeros to 56 mod 64, 64-bit big-endian
bit length. -/
def sha1Pad (msg : List Nat) : List Nat :=
  let ml := msg.length
  let padZeros := (119 - (ml % 64)) % 64
  let bitLen := ml * 8
  msg ++ [128] ++ List.replicate padZeros 0 ++
    ((List.range 8).map (fun i => (bitLen >>> (8 * (7 - i))) % 256))

/-- Big-endian 32-bit words of a 64-byte block. -/
def bytesToWords : List Nat → List Nat
  | a :: b :: c :: d :: rest => (((a * 256 + b) * 256 + c) * 256 + d) :: bytesToWords rest
  | _ => []

/-- SHA-1 message-schedule expansion from 16 to 80 words. -/
def sha1Extend (ws : List Nat) : List Nat :=
  (List.range 64).foldl (fun acc _ =>
    let n := acc.length
    acc ++ [rotl32 1 (((acc.getD (n - 3) 0) ^^^ (acc.getD (n - 8) 0)) ^^^
      ((acc.getD (n - 14) 0) ^^^ (acc.getD (n - 16) 0)))]) ws

/-- SHA-1 round function. -/
def sha1F (i b c d : Nat) : Nat :=
  if i < 20 then (b &&& c) ||| ((b ^^^ 4294967295) &&& d)
  else if i < 40 then (b ^^^ c) ^^^ d
  else if i < 60 then ((b &&& c) ||| (b &&& d)) ||| (c &&& d)
  else (b ^^^ c) ^^^ d

/-- SHA-1 round constants. -/
def sha1K (i : Nat) : Nat :=
  if i < 20 then 1518500249
  else if i < 40 then 1859775393
  else if i < 60 then 2400959708
  else 3395469782

/-- SHA-1 compression of one 64-byte block. -/
def sha1Block (h : Nat × Nat × Nat × Nat × Nat) (block : List Nat) :
    Nat × Nat × Nat × Nat × Nat :=
  let ws := sha1Extend (bytesToWords block)
  let step := fun (st : Nat × Nat × Nat × Nat × Nat) (iw : Nat × Nat) =>
    let temp := (rotl32 5 st.1 + sha1F iw.1 st.2.1 st.2.2.1 st.2.2.2.1 +
      st.2.2.2.2 + sha1K iw.1 + iw.2) % w32
    (temp, st.1, rotl32 30 st.2.1, st.2.2.1, st.2.2.2.1)
  let f := ws.enum.foldl step h
  ((h.1 + f.1) % w32, (h.2.1 + f.2.1) % w32, (h.2.2.1 + f.2.2.1) % w32,
   (h.2.2.2.1 + f.2.2.2.1) % w32, (h.2.2.2.2 + f.2.2.2.2) % w32)

/-- Split a byte list into 64-byte blocks. -/
def chunk64 : List Nat → List (List Nat)
  | [] => []
  | a :: rest => ((a :: rest).take 64) :: chunk64 ((a :: rest).drop 64)
termination_by l => l.length
decreasing_by simp [List.length_drop]; omega

/-- Lowercase hex digit. -/
def hexChar (n : Nat) : Char :=
  if n < 10 then Char.ofNat (48 + n) else Char.ofNat (87 + n)

/-- Eight lowercase hex digits of a 32-bit word, most significant first. -/
def word8Hex (x : Nat) : List Char :=
  (List.range 8).map (fun i => hexChar ((x >>> (4 * (7 - i))) % 16))

/-- `hashlib.sha1(s.encode("utf-8")).hexdigest()`. -/
def sha1hex (s : String) : String :=
  let blocks := chunk64 (sha1Pad (strBytes s))
  let h := blocks.foldl sha1Block (1732584193, 4023233417, 2562383102, 271733878, 3285377520)
  String.mk (word8Hex h.1 ++ word8Hex h.2.1 ++ word8Hex h.2.2.1 ++
    word8Hex h.2.2.2.1 ++ word8Hex h.2.2.2.2)

/-- Python `min(r :: rs)`. -/
def listMin (r : Int) (rs : List Int) : Int := rs.foldl min r

/-- Python `max(r :: rs)`. -/
def listMax (r : Int) (rs : List Int) : Int := rs.foldl max r

/-- `_make_idempotency_key` (`main.py:56-61`). -/
def make_idempotency_key (sheet_id sheet_name : String) (rows : List Int) : String :=
  let base := match rows with
    | [] => sheet_id ++ ":" ++ sheet_name ++ ":empty"
    | r :: rs =>
      sheet_id ++ ":" ++ sheet_name ++ ":" ++ toString (listMin r rs) ++ "-" ++
        toString (listMax r rs) ++ ":" ++ toString (rows.length)
  sha1hex base

/-- The `_IDEMPOTENCY` dict (`main.py:52`): key ↦ first-seen timestamp.
The `_ID_LOCK` critical section is modelled by the whole check-and-mark
being one pure state transition. -/
def IdemState : Type := List (String × ℚ)

/-- `_ID_TTL_SECONDS = 10 * 60` (`main.py:54`). -/
def ID_TTL_SECONDS : ℚ := 600

/-- The purge loop of `_already_processed` (`main.py:68-70`): drop entries
with `now - ts > TTL`. -/
def purgeOld (st : IdemState) (now : ℚ) : IdemState :=
  st.filter (fun kv => decide (now - kv.2 ≤ ID_TTL_SECONDS))

/-- `_already_processed` (`main.py:63-74`): purge, then atomically
check-and-record `key`.  Returns the Python return value together with the
updated `_IDEMPOTENCY` state. -/
def already_processed (st : IdemState) (now : ℚ) (key : String) : Bool × IdemState :=
  let purged := purgeOld st now
  if purged.any (fun kv => decide (kv.1 = key)) then (true, purged)
  else (false, (key, now) :: purged)

/-- Transport-level success of one `requests.post` (`main.py:234-239`). -/
structure NetResp where
  status_code : Nat
  text : String
deriving DecidableEq, Repr

/-- The JSON body posted to the webhook (`main.py:226`). -/
structure Payload where
  sheetId : String
  sheetName : String
  results : List SheetResult
deriving DecidableEq, Repr

/-- The dict returned by `post_results_once` (`main.py:224,241-247,252`).
The `elapsed_ms` field is wall-clock instrumentation and is not modelled. -/
structure PostOutcome where
  status : String
  http_status : Option Nat
  body : Option String
  error : Option String
  idempotency_key : String
deriving DecidableEq, Repr

/-- The `for attempt in range(1, 4)` retry loop of `post_results_once`
(`main.py:229-252`).  `net attempt payload` is the transport outcome of
`requests.post` (`.error e` models a raised exception with `str(e) = e`);
`made` counts attempts already made, `delay` is `base_delay`, `last` is
`last_exc`, and `sleeps` accumulates the `time.sleep` durations. -/
def deliveryAttempts (net : Nat → Payload → Except String NetResp) (payload : Payload)
    (key : String) :
    Nat → Nat → ℚ → Option String → List ℚ → PostOutcome × Nat × List ℚ
  | 0, made, _, last, sleeps =>
    ({ status := "post_failed", http_status := none, body := none,
       error := last, idempotency_key := key }, made, sleeps.reverse)
  | fuel + 1, made, delay, _, sleeps =>
    match net (made + 1) payload with
    | .ok r =>
      ({ status := "ok", http_status := some r.status_code,
         body := some (pyTake r.text 200), error := none, idempotency_key := key },
       made + 1, sleeps.reverse)
    | .error e =>
      deliveryAttempts net payload key fuel (made + 1) (delay * 2) (some e) (delay :: sleeps)

/-- `post_results_once` (`main.py:213-252`).  Returns the outcome dict, the
updated idempotency state, the number of network attempts made, and the
slept backoff durations. -/
def post_results_once (sheet_id sheet_name : String)
    (results_for_sheet : List SheetResult) (idempotency_key : String)
    (st : IdemState) (now : ℚ) (net : Nat → Payload → Except String NetResp) :
    PostOutcome × IdemState × Nat × List ℚ :=
  let checked := already_processed st now idempotency_key
  if checked.1 then
    ({ status := "duplicate_skipped", http_status := some 200, body := none,
       error := none, idempotency_key := idempotency_key }, checked.2, 0, [])
  else
    let payload : Payload :=
      { sheetId := sheet_id, sheetName := sheet_name, results := results_for_sheet }
    let run := deliveryAttempts net payload idempotency_key 3 0 1 none []
    (run.1, checked.2, run.2.1, run.2.2)

/-- `NameValidationRequest` (`main.py:83-86`). -/
structure NameValidationRequest where
  sheetId : String
  sheetName : String
  names : List NameEntry
deriving DecidableEq, Repr

/-- One element of the `names` list of `results_for_api` (`main.py:281-288`). -/
structure ApiName where
  name : String
  valid : Bool
  score : ℚ
  human_review : Bool
deriving DecidableEq, Repr

/-- One element of `results_for_api` (`main.py:277-291`). -/
structure ApiResult where
  row : Int
  input : String
  names : List ApiName
deriving DecidableEq, Repr

/-- The response envelope of `validate_names` (`main.py:293-305`), minus the
wall-clock `timings` block, which is not modelled. -/
structure Envelope where
  status : String
  sheet : String
  count : Nat
  webapp : PostOutcome
  idempotency_key : String
  results : List ApiResult
deriving DecidableEq, Repr

/-- The `/validate` handler `validate_names` (`main.py:257-305`).  Returns
the envelope together with the updated idempotency state, the network
attempt count, and the backoff trace of the publisher. -/
def validate_names (data : NameValidationRequest) (oracle : String → Except Unit String)
    (order : List Nat) (st : IdemState) (now : ℚ)
    (net : Nat → Payload → Except String NetResp) :
    Envelope × IdemState × Nat × List ℚ :=
  let results_for_sheet := validate_batch_parallel data.names oracle order
  let rows := results_for_sheet.map (fun r => r.row)
  let idem_key := make_idempotency_key data.sheetId data.sheetName rows
  let posted := post_results_once data.sheetId data.sheetName results_for_sheet idem_key st now net
  let webapp := posted.1
  let results_for_api := results_for_sheet.map (fun r =>
    ({ row := r.row, input := r.input,
       names := [{ name := r.name, valid := decide (r.valid = "Yes"),
                   score := r.score, human_review := r.human_review }] } : ApiResult))
  ({ status := if webapp.status = "ok" ∨ webapp.status = "duplicate_skipped"
       then "ok" else "partial",
     sheet := data.sheetName, count := data.names.length, webapp := webapp,
     idempotency_key := idem_key, results := results_for_api },
   posted.2.1, posted.2.2.1, posted.2.2.2)

/-- Modelled from the spec: the spec-level Verdict (§3) carries
`score: number in [0,10] or absent`.  Used to compare the code's always-numeric
`score` dict value against the spec's optional score. -/
structure SpecVerdict where
  valid : Bool
  score : Option ℚ
  humanReview : Bool
deriving DecidableEq, Repr

/-- View of a code-level verdict dict as a spec-level Verdict: the dict's
`score` key is always present with a numeric value, injected as `some`. -/
def verdictToSpec (v : Verdict) : SpecVerdict :=
  { valid := v.valid, score := some v.score, humanReview := v.human_review }

/-- The degraded Verdict asserted by the spec for classification failures:
`valid=false`, `score` absent, `humanReview=true`. -/
def claimedDegradedVerdict : SpecVerdict :=
  { valid := false, score := none, humanReview := true }

/-- Modelled from the spec: the TokenExtractor contract of §4.1 — split on
the first matching delimiter in priority order (comma, the literal
`" and "`, ampersand, slash); if none match, the whole trimmed string is one
token; tokens that trim to empty are dropped. -/
def extract_spec (rawInput : String) : List String :=
  let pieces := match [",", " and ", "&", "/"].find? (fun d => strContains rawInput d) with
    | some d => pySplitOnLit rawInput d
    | none => [pyStrip rawInput]
  (pieces.map (fun t => pyStrip t)).filter (fun t => t ≠ "")

/-- A fold of `parse_line_step` over lines that never start (after
trim/lowercase) with a recognized key leaves the dict unchanged. -/
theorem foldl_parse_line_step_of_no_key (lines : List String) (out : ParsedResponse)
    (h : ∀ line ∈ lines, pyStartsWith (pyLower (pyStrip line)) "valid" = false ∧
      pyStartsWith (pyLower (pyStrip line)) "score" = false ∧
      pyStartsWith (pyLower (pyStrip line)) "human_review" = false) :
    lines.foldl parse_line_step out = out := by
  induction lines generalizing out with
  | nil => rfl
  | cons l t ih =>
    have hl := h l (by simp)
    have hstep : parse_line_step out l = out := by
      unfold parse_line_step
      simp [hl.1, hl.2.1, hl.2.2]
    rw [List.foldl_cons, hstep]
    exact ih out (fun line hm => h line (by simp [hm]))

/-- C3: for every Verdict produced by `validate_one_name` from an oracle
reply, if the parsed score is absent or strictly below 6 then
`human_review` is `true` — for every reply text, in particular replies that
explicitly state `human_review: false` (the parsed `human_review` field is
never consulted). -/
theorem low_or_missing_score_forces_review (name_str text : String)
    (h : (parse_validation_response (pyStrip text)).score = none ∨
      ∃ q : ℚ, (parse_validation_response (pyStrip text)).score = some q ∧ q < 6) :
    (validate_one_name name_str (Except.ok text)).human_review = true := by
  unfold validate_one_name
  by_cases hn : name_str = ""
  · simp [hn]
  · rcases h with hnone | ⟨q, hq, hlt⟩
    · simp [hn, hnone]
    · simp [hn, hq, hlt]

/-- C3 witness: a reply scoring 3 that explicitly claims
`human_review: false` is nevertheless flagged for review. -/
theorem low_or_missing_score_forces_review_witness :
    (validate_one_name "bob"
      (Except.ok "valid: yes\nscore: 3\nhuman_review: false")).human_review = true :=
  low_or_missing_score_forces_review "bob" "valid: yes\nscore: 3\nhuman_review: false"
    (Or.inr ⟨3, by decide, by norm_num⟩)

/-- C10: for every Verdict produced by `validate_one_name` on a non-empty
token whose reply parses to a score of at least 6, `human_review` is
`false` — for every reply text, in particular replies that explicitly state
`human_review: true` (the parsed `human_review` field is never consulted). -/
theorem high_score_skips_review (name_str text : String) (q : ℚ)
    (hn : name_str ≠ "")
    (hs : (parse_validation_response (pyStrip text)).score = some q)
    (h6 : 6 ≤ q) :
    (validate_one_name name_str (Except.ok text)).human_review = false := by
  have hnl : ¬ q < 6 := not_lt.mpr h6
  unfold validate_one_name
  simp [hn, hs, hnl]

/-- C10 witness: a reply scoring 9 that explicitly claims
`human_review: true` is nevertheless not flagged for review. -/
theorem high_score_skips_review_witness :
    (validate_one_name "bob"
      (Except.ok "valid: yes\nscore: 9\nhuman_review: true")).human_review = false :=
  high_score_skips_review "bob" "valid: yes\nscore: 9\nhuman_review: true" 9
    (by decide) (by decide) (by norm_num)

/-- C6 counterexample: on oracle failure the code's verdict carries the
numeric score `0` — the `score` key is present, not absent as claimed, so
the code verdict does not match the claimed degraded spec Verdict. -/
theorem degraded_verdict_score_not_absent :
    verdictToSpec (validate_one_name "bob" (Except.error ())) ≠ claimedDegradedVerdict ∧
    (validate_one_name "bob" (Except.error ())).score = 0 := by
  constructor
  · intro h
    have := congrArg SpecVerdict.score h
    simp [verdictToSpec, claimedDegradedVerdict, validate_one_name] at this
  · decide

/-- C6 (amended): `validate_one_name` never propagates a failure (it is a
total function); when the oracle call fails, or the reply parses to the
all-`None` dict, it returns the safe verdict `valid=false`, `score = 0`
(present, not absent), `human_review=true`. -/
theorem classify_failure_degrades_safely (name_str text : String)
    (hn : name_str ≠ "")
    (hparse : parse_validation_response (pyStrip text) = ⟨none, none, none⟩) :
    validate_one_name name_str (Except.error ()) =
      { normalized_name := name_str, valid := false, score := 0, human_review := true } ∧
    validate_one_name name_str (Except.ok text) =
      { normalized_name := name_str, valid := false, score := 0, human_review := true } := by
  constructor
  · unfold validate_one_name
    simp [hn]
  · unfold validate_one_name
    simp [hn, hparse]

/-- C6 witness: both a raised oracle call and an unparseable reply degrade
to the safe verdict for the token `"bob"`. -/
theorem classify_failure_degrades_safely_witness :
    validate_one_name "bob" (Except.error ()) =
      { normalized_name := "bob", valid := false, score := 0, human_review := true } ∧
    validate_one_name "bob" (Except.ok "total garbage") =
      { normalized_name := "bob", valid := false, score := 0, human_review := true } :=
  classify_failure_degrades_safely "bob" "total garbage" (by decide) (by decide)

/-- C8 counterexample: a well-formed single-line JSON object reply is not
accepted — every field parses to `None` and the verdict degrades —
contradicting the claim that the parser accepts a JSON encoding (attempted
first) alongside the line encoding. -/
theorem json_reply_not_accepted :
    parse_validation_response "\x7b\"valid\": true, \"score\": 7\x7d" =
      ⟨none, none, none⟩ ∧
    (validate_one_name "bob"
      (Except.ok "\x7b\"valid\": true, \"score\": 7\x7d")).valid = false ∧
    (validate_one_name "bob"
      (Except.ok "\x7b\"valid\": true, \"score\": 7\x7d")).human_review = true := by
  refine ⟨by decide, by decide, by decide⟩

/-- C8 (amended): the reply parser accepts only the line-oriented
`key: value` encoding; a reply none of whose lines begins (after
trim/lowercase) with a recognized key — in particular a single-line JSON
object — parses to the all-`None` dict, and `validate_one_name` degrades
such a reply to the safe verdict instead of raising. -/
theorem parser_is_line_oriented_only (name_str text : String)
    (hn : name_str ≠ "")
    (h : ∀ line ∈ pySplitlines (pyStrip text),
      pyStartsWith (pyLower (pyStrip line)) "valid" = false ∧
      pyStartsWith (pyLower (pyStrip line)) "score" = false ∧
      pyStartsWith (pyLower (pyStrip line)) "human_review" = false) :
    parse_validation_response (pyStrip text) = ⟨none, none, none⟩ ∧
    validate_one_name name_str (Except.ok text) =
      { normalized_name := name_str, valid := false, score := 0, human_review := true } := by
  have hp : parse_validation_response (pyStrip text) = ⟨none, none, none⟩ :=
    foldl_parse_line_step_of_no_key _ _ h
  refine ⟨hp, ?_⟩
  unfold validate_one_name
  simp [hn, hp]

/-- C8 witness: the JSON-object reply consists of a single line starting
with a brace, so the line parser assigns nothing and the classifier
degrades it safely. -/
theorem parser_is_line_oriented_only_witness :
    parse_validation_response (pyStrip "\x7b\"valid\": true, \"score\": 7\x7d") =
      ⟨none, none, none⟩ ∧
    validate_one_name "bob" (Except.ok "\x7b\"valid\": true, \"score\": 7\x7d") =
      { normalized_name := "bob", valid := false, score := 0, human_review := true } :=
  parser_is_line_oriented_only "bob" "\x7b\"valid\": true, \"score\": 7\x7d"
    (by decide) (by decide)

/-- C7: the idempotency key is the (deterministic) SHA-1 digest of the
colon-joined batch id, batch label, row span `min-max` and row count, with
the fixed sentinel base for zero-entry batches; two requests with the same
id, label, span and count — whatever their individual rows — collide. -/
theorem idempotency_key_depends_only_on_span_and_count
    (sheet_id sheet_name : String) (r r' : Int) (rs rs' : List Int)
    (hmin : listMin r rs = listMin r' rs')
    (hmax : listMax r rs = listMax r' rs')
    (hlen : (r :: rs).length = (r' :: rs').length) :
    make_idempotency_key sheet_id sheet_name (r :: rs) =
      make_idempotency_key sheet_id sheet_name (r' :: rs') ∧
    make_idempotency_key sheet_id sheet_name [] =
      sha1hex (sheet_id ++ ":" ++ sheet_name ++ ":empty") := by
  constructor
  · unfold make_idempotency_key
    dsimp only
    rw [hmin, hmax, hlen]
  · rfl

/-- C7 witness: `[2, 5, 9]` and `[2, 7, 9]` share span `2-9` and count `3`,
so they produce the same key. -/
theorem idempotency_key_depends_only_on_span_and_count_witness :
    make_idempotency_key "sheet" "tab" [2, 5, 9] =
      make_idempotency_key "sheet" "tab" [2, 7, 9] ∧
    make_idempotency_key "sheet" "tab" [] =
      sha1hex ("sheet" ++ ":" ++ "tab" ++ ":empty") :=
  idempotency_key_depends_only_on_span_and_count "sheet" "tab" 2 2 [5, 9] [7, 9]
    (by decide) (by decide) (by decide)

/-- C9 counterexample: the extractor described by the claim would keep
`"John Smith"` whole (no delimiter matches) and would split
`"Anne/Marie"` at the slash, but the code whitespace-splits the former to
`"John"` and leaves the latter unsplit — it returns a single token, not
the claimed sequence. -/
theorem extractor_disagrees_with_claimed_split :
    extract_spec "John Smith" = ["John Smith"] ∧
    pick_first_token_as_name "John Smith" = "John" ∧
    extract_spec "Anne/Marie" = ["Anne", "Marie"] ∧
    pick_first_token_as_name "Anne/Marie" = "Anne/Marie" := by
  refine ⟨by decide, by decide, by decide, by decide⟩

/-- C9 (amended): for every raw input, the extractor returns one token
string, not a sequence: after replacing commas and ampersands with the
literal `" and "`, collapsing double spaces once and stripping, it splits
on the literal `" and "`, whitespace-splits each part, and returns the
first token in order — the empty string when there is none, in particular
for empty or whitespace-only input. -/
theorem first_token_characterization (input_name : String) :
    pick_first_token_as_name input_name =
      (((pySplitOnLit (pyCleaned input_name) " and ").map
        (fun p => pySplitWs (pyStrip p))).flatten).headD "" := by
  have hparts : ∀ parts : List String,
      firstTokenOfParts parts =
        ((parts.map (fun p => pySplitWs (pyStrip p))).flatten).headD "" := by
    intro parts
    induction parts with
    | nil => rfl
    | cons part rest ih =>
      cases hsp : pySplitWs (pyStrip part) with
      | nil => simp [firstTokenOfParts, hsp, ih]
      | cons t ts => simp [firstTokenOfParts, hsp]
  unfold pick_first_token_as_name
  by_cases h : input_name = ""
  · subst h; decide
  · simp [h, hparts]

/-- C4: idempotency lifecycle for one key.  Starting from a state with no
record for `key`, the first check at `t0` returns `false` and records the
key; any check at `t1` with `t1 - t0` within the 10-minute TTL returns
`true`, and the publisher then returns `duplicate_skipped` with zero
network attempts; a check at `t2` past the TTL returns `false` again, and
the publisher runs exactly one new delivery attempt sequence (here one
successful attempt). -/
theorem idempotency_ttl_lifecycle
    (st : IdemState) (t0 t1 t2 : ℚ) (key : String)
    (sheet_id sheet_name : String) (results : List SheetResult)
    (net : Nat → Payload → Except String NetResp) (r : NetResp)
    (h0 : (purgeOld st t0).any (fun kv => decide (kv.1 = key)) = false)
    (h1 : t1 - t0 ≤ ID_TTL_SECONDS)
    (h2 : ID_TTL_SECONDS < t2 - t0)
    (hnet : ∀ p, net 1 p = Except.ok r) :
    already_processed st t0 key = (false, (key, t0) :: purgeOld st t0) ∧
    (already_processed ((key, t0) :: purgeOld st t0) t1 key).1 = true ∧
    (post_results_once sheet_id sheet_name results key
      ((key, t0) :: purgeOld st t0) t1 net).1.status = "duplicate_skipped" ∧
    (post_results_once sheet_id sheet_name results key
      ((key, t0) :: purgeOld st t0) t1 net).2.2.1 = 0 ∧
    (already_processed ((key, t0) :: purgeOld st t0) t2 key).1 = false ∧
    (post_results_once sheet_id sheet_name results key
      ((key, t0) :: purgeOld st t0) t2 net).1.status = "ok" ∧
    (post_results_once sheet_id sheet_name results key
      ((key, t0) :: purgeOld st t0) t2 net).2.2.1 = 1 := by
  have hkeep : (decide (t1 - t0 ≤ ID_TTL_SECONDS)) = true := by simp [h1]
  have hdrop : (decide (t2 - t0 ≤ ID_TTL_SECONDS)) = false := by simp [not_le.mpr h2]
  have hp2 : (already_processed ((key, t0) :: purgeOld st t0) t1 key).1 = true := by
    have hany : (purgeOld ((key, t0) :: purgeOld st t0) t1).any
        (fun kv => decide (kv.1 = key)) = true := by
      unfold purgeOld
      rw [List.filter_cons]
      dsimp only
      rw [hkeep]
      simp
    simp only [already_processed, hany]
    simp
  have hp5 : (already_processed ((key, t0) :: purgeOld st t0) t2 key).1 = false := by
    have hcons : purgeOld ((key, t0) :: purgeOld st t0) t2 = purgeOld (purgeOld st t0) t2 := by
      unfold purgeOld
      rw [List.filter_cons]
      dsimp only
      rw [hdrop]
      simp
    have hany2 : (purgeOld ((key, t0) :: purgeOld st t0) t2).any
        (fun kv => decide (kv.1 = key)) = false := by
      rw [hcons]
      rw [List.any_eq_false] at h0 ⊢
      intro kv hm
      exact h0 kv (List.mem_of_mem_filter hm)
    simp only [already_processed, hany2]
    simp
  refine ⟨?_, hp2, ?_, ?_, hp5, ?_, ?_⟩
  · simp [already_processed, h0]
  · simp [post_results_once, hp2]
  · simp [post_results_once, hp2]
  · simp [post_results_once, hp5, deliveryAttempts, hnet]
  · simp [post_results_once, hp5, deliveryAttempts, hnet]

/-- C4 witness: key "k" first seen at `t0 = 0`; a duplicate at `t1 = 300`
(within the TTL) is skipped without network attempts; a resubmission at
`t2 = 1000` (past the TTL) runs exactly one successful delivery attempt. -/
theorem idempotency_ttl_lifecycle_witness :
    already_processed [] 0 "k" = (false, [("k", 0)]) ∧
    (already_processed [("k", 0)] 300 "k").1 = true ∧
    (post_results_once "s" "n" [] "k" [("k", 0)] 300
      (fun _ _ => Except.ok ⟨200, "done"⟩)).1.status = "duplicate_skipped" ∧
    (post_results_once "s" "n" [] "k" [("k", 0)] 300
      (fun _ _ => Except.ok ⟨200, "done"⟩)).2.2.1 = 0 ∧
    (already_processed [("k", 0)] 1000 "k").1 = false ∧
    (post_results_once "s" "n" [] "k" [("k", 0)] 1000
      (fun _ _ => Except.ok ⟨200, "done"⟩)).1.status = "ok" ∧
    (post_results_once "s" "n" [] "k" [("k", 0)] 1000
      (fun _ _ => Except.ok ⟨200, "done"⟩)).2.2.1 = 1 :=
  idempotency_ttl_lifecycle [] 0 300 1000 "k" "s" "n" []
    (fun _ _ => Except.ok ⟨200, "done"⟩) ⟨200, "done"⟩
    (by decide) (by norm_num [ID_TTL_SECONDS]) (by norm_num [ID_TTL_SECONDS])
    (fun _ => rfl)

/-- C5: when the transport fails on every attempt, the publisher makes
exactly 3 attempts with exponential backoff sleeps of 1s, 2s, 4s, returns
a `post_failed` outcome carrying the third attempt's error, and the
orchestrator's response status is `"partial"`; a transport-level success
carrying any (possibly non-2xx) HTTP status is a delivered (`"ok"`)
outcome after exactly one attempt. -/
theorem delivery_failure_retries_and_partial_status
    (sheet_id sheet_name : String) (results : List SheetResult) (key : String)
    (st : IdemState) (now : ℚ)
    (data : NameValidationRequest) (oracle : String → Except Unit String)
    (order : List Nat)
    (net₁ net₂ : Nat → Payload → Except String NetResp)
    (errs : Nat → String) (r : NetResp)
    (hfail : ∀ k p, net₁ k p = Except.error (errs k))
    (hok : ∀ p, net₂ 1 p = Except.ok r)
    (hfresh : (purgeOld st now).any (fun kv => decide (kv.1 = key)) = false) :
    (post_results_once sheet_id sheet_name results key st now net₁).1.status = "post_failed" ∧
    (post_results_once sheet_id sheet_name results key st now net₁).1.error = some (errs 3) ∧
    (post_results_once sheet_id sheet_name results key st now net₁).2.2.1 = 3 ∧
    (post_results_once sheet_id sheet_name results key st now net₁).2.2.2 = [1, 2, 4] ∧
    (validate_names data oracle order [] now net₁).1.status = "partial" ∧
    (post_results_once sheet_id sheet_name results key st now net₂).1.status = "ok" ∧
    (post_results_once sheet_id sheet_name results key st now net₂).1.http_status =
      some r.status_code ∧
    (post_results_once sheet_id sheet_name results key st now net₂).2.2.1 = 1 := by
  have hnotdup : (already_processed st now key).1 = false := by
    simp [already_processed, hfresh]
  refine ⟨?_, ?_, ?_, ?_, ?_, ?_, ?_, ?_⟩
  · simp [post_results_once, hnotdup, deliveryAttempts, hfail]
  · simp [post_results_once, hnotdup, deliveryAttempts, hfail]
  · simp [post_results_once, hnotdup, deliveryAttempts, hfail]
  · simp [post_results_once, hnotdup, deliveryAttempts, hfail]
    norm_num
  · simp [validate_names, post_results_once, already_processed, purgeOld,
      deliveryAttempts, hfail]
  · simp [post_results_once, hnotdup, deliveryAttempts, hok]
  · simp [post_results_once, hnotdup, deliveryAttempts, hok]
  · simp [post_results_once, hnotdup, deliveryAttempts, hok]

/-- C5 witness: a transport that always raises produces 3 attempts, backoff
1s/2s/4s, a `post_failed` outcome with the third error and a `"partial"`
response; a transport returning HTTP 500 on the first attempt yields an
`"ok"` outcome with `http_status = 500` after exactly one attempt. -/
theorem delivery_failure_retries_and_partial_status_witness :
    (post_results_once "s" "n" [] "k" [] 0
      (fun k _ => Except.error (toString k))).1.status = "post_failed" ∧
    (post_results_once "s" "n" [] "k" [] 0
      (fun k _ => Except.error (toString k))).1.error = some (toString 3) ∧
    (post_results_once "s" "n" [] "k" [] 0
      (fun k _ => Except.error (toString k))).2.2.1 = 3 ∧
    (post_results_once "s" "n" [] "k" [] 0
      (fun k _ => Except.error (toString k))).2.2.2 = [1, 2, 4] ∧
    (validate_names ⟨"s", "n", []⟩ (fun _ => Except.error ()) [] [] 0
      (fun k _ => Except.error (toString k))).1.status = "partial" ∧
    (post_results_once "s" "n" [] "k" [] 0
      (fun _ _ => Except.ok ⟨500, "error page"⟩)).1.status = "ok" ∧
    (post_results_once "s" "n" [] "k" [] 0
      (fun _ _ => Except.ok ⟨500, "error page"⟩)).1.http_status = some 500 ∧
    (post_results_once "s" "n" [] "k" [] 0
      (fun _ _ => Except.ok ⟨500, "error page"⟩)).2.2.1 = 1 :=
  delivery_failure_retries_and_partial_status "s" "n" [] "k" [] 0
    ⟨"s", "n", []⟩ (fun _ => Except.error ()) []
    (fun k _ => Except.error (toString k)) (fun _ _ => Except.ok ⟨500, "error page"⟩)
    (fun k => toString k) ⟨500, "error page"⟩
    (fun _ _ => rfl) (fun _ => rfl) (by decide)

/-- Indexing a list by the full range of its positions and mapping
recovers the mapped list. -/
theorem filterMap_range_getElem {α β : Type} (l : List α) (f : α → β) :
    (List.range l.length).filterMap (fun i => (l[i]?).map f) = l.map f := by
  induction l with
  | nil => rfl
  | cons a t ih =>
    simp only [List.length_cons, List.range_succ_eq_map, List.filterMap_cons,
      List.getElem?_cons_zero, Option.map_some', List.filterMap_map,
      Function.comp_def, List.getElem?_cons_succ, List.map_cons]
    rw [ih]

/-- The dispatcher's output is a permutation of one `SheetResult` per input
entry (in entry order), for every completion order of the futures. -/
theorem validate_batch_parallel_perm (entries : List NameEntry)
    (oracle : String → Except Unit String) (order : List Nat)
    (hord : order.Perm (List.range entries.length)) :
    (validate_batch_parallel entries oracle order).Perm
      (entries.map (fun e =>
        mkSheetResult e.row e.name
          (validate_one_name (pick_first_token_as_name e.name)
            (oracle (pick_first_token_as_name e.name))))) := by
  unfold validate_batch_parallel
  dsimp only
  refine (List.mergeSort_perm _ _).trans ?_
  have h1 := hord.filterMap (fun i =>
    ((entries.map (fun e => (e.row, pick_first_token_as_name e.name, e.name)))[i]?).map
      (fun c => mkSheetResult c.1 c.2.2 (validate_one_name c.2.1 (oracle c.2.1))))
  refine h1.trans ?_
  have hlen : entries.length =
      (entries.map (fun e => (e.row, pick_first_token_as_name e.name, e.name))).length := by
    rw [List.length_map]
  rw [hlen, filterMap_range_getElem, List.map_map]
  rfl

/-- C2: for every batch, every oracle behaviour (including failing calls)
and every completion order, the dispatcher emits exactly one Result per
input Entry — the multiset of `(row, input)` pairs of the output equals
that of the entries, so none is dropped and none duplicated, even when two
entries carry the same name string. -/
theorem one_result_per_entry (entries : List NameEntry)
    (oracle : String → Except Unit String) (order : List Nat)
    (hord : order.Perm (List.range entries.length)) :
    ((validate_batch_parallel entries oracle order).map (fun r => (r.row, r.input))).Perm
      (entries.map (fun e => (e.row, e.name))) := by
  have h := (validate_batch_parallel_perm entries oracle order hord).map
    (fun r => (r.row, r.input))
  refine h.trans ?_
  rw [List.map_map]
  rfl

/-- C2 witness: two entries with the same name string and an oracle that
always fails still yield exactly one Result per Entry, here under completion
order `[1, 0]`. -/
theorem one_result_per_entry_witness :
    ((validate_batch_parallel [⟨1, "Bob"⟩, ⟨2, "Bob"⟩] (fun _ => Except.error ())
      [1, 0]).map (fun r => (r.row, r.input))).Perm
      ([⟨1, "Bob"⟩, ⟨2, "Bob"⟩].map (fun e : NameEntry => (e.row, e.name))) :=
  one_result_per_entry [⟨1, "Bob"⟩, ⟨2, "Bob"⟩] (fun _ => Except.error ()) [1, 0]
    (by decide)

/-- C1: for every batch whose rows are pairwise distinct (the Batch
invariant of the data model) and every completion order of the
classification calls, the dispatcher's returned sequence is sorted
strictly ascending by `row`. -/
theorem results_sorted_strictly_by_row (entries : List NameEntry)
    (oracle : String → Except Unit String) (order : List Nat)
    (hrows : (entries.map (fun e => e.row)).Nodup)
    (hord : order.Perm (List.range entries.length)) :
    List.Sorted (fun a b : SheetResult => a.row < b.row)
      (validate_batch_parallel entries oracle order) := by
  have htrans : ∀ a b c : SheetResult,
      rowLe a b = true → rowLe b c = true → rowLe a c = true := by
    intro a b c hab hbc
    simp only [rowLe, decide_eq_true_eq] at *
    omega
  have htotal : ∀ a b : SheetResult, (rowLe a b || rowLe b a) = true := by
    intro a b
    simp only [rowLe, Bool.or_eq_true, decide_eq_true_eq]
    omega
  have hsorted : List.Pairwise (fun a b => rowLe a b = true)
      (validate_batch_parallel entries oracle order) := by
    unfold validate_batch_parallel
    dsimp only
    exact List.sorted_mergeSort htrans htotal _
  have hrowperm : ((validate_batch_parallel entries oracle order).map
      (fun r => r.row)).Perm (entries.map (fun e => e.row)) := by
    have h := (validate_batch_parallel_perm entries oracle order hord).map
      (fun r => r.row)
    refine h.trans ?_
    rw [List.map_map]
    rfl
  have hnodup : ((validate_batch_parallel entries oracle order).map
      (fun r => r.row)).Nodup := hrowperm.nodup_iff.mpr hrows
  have hne : List.Pairwise (fun a b : SheetResult => a.row ≠ b.row)
      (validate_batch_parallel entries oracle order) := List.pairwise_map.mp hnodup
  exact (hsorted.and hne).imp (fun hab =>
    lt_of_le_of_ne (by simpa [rowLe] using hab.1) hab.2)

/-- C1 witness: the batch of rows `2, 3, 4` dispatched under the injected
completion order `[2, 0, 1]` still publishes rows strictly ascending. -/
theorem results_sorted_strictly_by_row_witness :
    List.Sorted (fun a b : SheetResult => a.row < b.row)
      (validate_batch_parallel
        [⟨2, "John Smith"⟩, ⟨3, ""⟩, ⟨4, "Dylan and Shaya"⟩]
        (fun _ => Except.ok "valid: yes\nscore: 9\nhuman_review: false")
        [2, 0, 1]) :=
  results_sorted_strictly_by_row
    [⟨2, "John Smith"⟩, ⟨3, ""⟩, ⟨4, "Dylan and Shaya"⟩]
    (fun _ => Except.ok "valid: yes\nscore: 9\nhuman_review: false")
    [2, 0, 1] (by decide) (by decide)

end NameValidator
